import Mathlib

/-!
# PulseNote feed-ranking engine: shallow embedding and verification

A shallow embedding of the `PulseNoteAlgorithm` class from
`src/pack-all/Pack-VP/Pack-VP/Pack-VP/popup.js`, together with theorems
settling the behavioural claims about it.

Modelling conventions:
* JS numbers holding scores are modelled as real numbers (`ℝ`), so that
  `Math.exp` becomes `Real.exp`; engagement and impression counters are `ℕ`;
  millisecond timestamps are `ℤ`.  Fields that only ever hold exact values
  (view duration, scroll depth, popularity rate) use `ℚ` so the record
  operations stay computable.
* The class fields `userImpressions`, `userEngagements` and `feedCache`
  (JS `Map`s) are modelled as an explicit `EngineState` of total functions
  with the `Map.get(k) || []` / `Map.has` access patterns folded in; each
  record/feed operation returns the updated state.
* `Date.now()` and `this.getDeviceType()` are impure reads; they are passed
  in as explicit `now` / `deviceType` arguments.
* The asynchronous `persistImpression` / `persistEngagement` calls are
  `fetch(...).catch(console.error)`, fire-and-forget; their outcome is
  modelled as a `persistOk : Bool` argument, so that independence of the
  result from that outcome is a provable statement.
* JS object spread `{ a, b, ...metadata }` resolves every key present in
  `metadata` to the metadata value (it is spread last) and otherwise to the
  explicitly constructed value; metadata records therefore carry `Option`
  fields and the construction uses `Option.getD`.
* `Array.prototype.sort` with comparator `(a, b) => b.score - a.score` is
  the stable descending sort by score; it is modelled by
  `List.insertionSort` with the relation `score b ≤ score a`, which is
  stable with the same tie behaviour.
-/

namespace PulseNote

/-- The `engagementCount` sub-object of a post: `{ likes, reposts, replies }`. -/
structure EngagementCount where
  likes : ℕ
  reposts : ℕ
  replies : ℕ
deriving DecidableEq, Repr

/-- A post as consumed by the engine.  `engagementCount` is optional in the
source (accessed via `post.engagementCount?.likes || 0`).  `createdAt` is a
millisecond timestamp (`new Date(post.createdAt).getTime()`). -/
structure Post where
  id : String
  anonymousId : String
  displayName : String
  createdAt : ℤ
  engagementCount : Option EngagementCount
  impressionCount : ℕ
deriving DecidableEq, Repr

/-- Source `post.engagementCount?.likes || 0`. -/
def Post.likes (p : Post) : ℕ := (p.engagementCount.map EngagementCount.likes).getD 0

/-- Source `post.engagementCount?.reposts || 0`. -/
def Post.reposts (p : Post) : ℕ := (p.engagementCount.map EngagementCount.reposts).getD 0

/-- Source `post.engagementCount?.replies || 0`. -/
def Post.replies (p : Post) : ℕ := (p.engagementCount.map EngagementCount.replies).getD 0

/-- JS `n || d` on a non-negative integer: `d` when `n` is `0` (falsy). -/
def jsOr (n d : ℕ) : ℕ := if n = 0 then d else n

/-- JS `s.startsWith(pre)`: is `pre` a leading character sequence of `s`. -/
def strStartsWith (s pre : String) : Bool := pre.data.isPrefixOf s.data

/-- The impression event constructed by `recordImpression`. -/
structure Impression where
  postId : String
  userId : String
  timestamp : ℤ
  viewDuration : ℚ
  scrollDepth : ℚ
  inViewport : Bool
  deviceType : String
deriving DecidableEq, Repr

/-- The engagement event constructed by `recordEngagement`. -/
structure Engagement where
  postId : String
  userId : String
  type : String
  timestamp : ℤ
deriving DecidableEq, Repr

/-- Optional fields of the `metadata` argument of `recordImpression`.  A
`some` field is a key present in the JS metadata object (spread last, so it
overrides the constructed value); `none` is an absent key. -/
structure ImpressionMetadata where
  postId : Option String
  userId : Option String
  timestamp : Option ℤ
  viewDuration : Option ℚ
  scrollDepth : Option ℚ
  inViewport : Option Bool
  deviceType : Option String
deriving DecidableEq, Repr

/-- The all-absent metadata object `{}`. -/
def ImpressionMetadata.empty : ImpressionMetadata :=
  ⟨none, none, none, none, none, none, none⟩

/-- Optional fields of the `metadata` argument of `recordEngagement`. -/
structure EngagementMetadata where
  postId : Option String
  userId : Option String
  type : Option String
  timestamp : Option ℤ
deriving DecidableEq, Repr

/-- The all-absent metadata object `{}`. -/
def EngagementMetadata.empty : EngagementMetadata := ⟨none, none, none, none⟩

/-- A post enriched by spread: `{...post, score}` or `{...post, trendScore}`.
Each pipeline sets exactly one of the two optional fields. -/
structure RankedPost where
  post : Post
  score : Option ℝ
  trendScore : Option ℝ

/-- A feed-cache entry: `{ feed, timestamp }`. -/
structure CacheEntry where
  feed : List RankedPost
  timestamp : ℤ

/-- The mutable fields of `PulseNoteAlgorithm`: per-user impression and
engagement lists and the per-user feed cache.  The cache key in the source is
the string `feed_${userId}`, injective in `userId`, so the cache is keyed
here by `userId` directly. -/
structure EngineState where
  userImpressions : String → List Impression
  userEngagements : String → List Engagement
  feedCache : String → Option CacheEntry

/-- A fresh engine: empty maps. -/
def EngineState.empty : EngineState :=
  ⟨fun _ => [], fun _ => [], fun _ => none⟩

/-- The `userPreferences` object — only `boostRecent` is consulted by the engine. -/
structure UserPreferences where
  boostRecent : Bool
deriving DecidableEq, Repr

/-- The default `userPreferences = {}` (absent `boostRecent` is falsy). -/
def UserPreferences.default : UserPreferences := ⟨false⟩

/-! ## Configuration (`this.config` defaults from the constructor) -/

def impressionDecayFactor : ℝ := 0.95

def engagementWeight : ℝ := 0.6

def recencyWeight : ℝ := 0.3

def diversityWeight : ℝ := 0.1

def minImpressionThreshold : ℕ := 10

def maxFeedSize : ℕ := 50

def impressionCacheTTL : ℤ := 3600000

/-! ## Record operations -/

/-- Source `recordImpression(postId, userId, metadata = {})`.

The source builds
`{ postId, userId, timestamp: Date.now(), viewDuration: metadata.viewDuration || 0,
   scrollDepth: metadata.scrollDepth || 0, inViewport: metadata.inViewport !== false,
   deviceType: this.getDeviceType(), ...metadata }`;
since `...metadata` is spread last, a present metadata key wins, and an
absent one leaves the constructed default: `0` for the numeric fields,
`true` for `inViewport` (`undefined !== false`), `Date.now()` for
`timestamp`, the argument values for `postId`/`userId` and
`this.getDeviceType()` for `deviceType`.  (A present `viewDuration`/
`scrollDepth`/`inViewport` key also wins over the `|| 0` / `!== false`
normalisation, because the spread overrides it.)  The impression is pushed
onto the user's list and returned; `persistImpression` is fired
asynchronously with `.catch(console.error)`, so `persistOk` — the outcome of
that call — is invisible to the caller. -/
def recordImpression (st : EngineState) (now : ℤ) (deviceType : String)
    (postId userId : String) (metadata : ImpressionMetadata) (persistOk : Bool) :
    EngineState × Impression :=
  let impression : Impression :=
    { postId := metadata.postId.getD postId
      userId := metadata.userId.getD userId
      timestamp := metadata.timestamp.getD now
      viewDuration := metadata.viewDuration.getD 0
      scrollDepth := metadata.scrollDepth.getD 0
      inViewport := metadata.inViewport.getD true
      deviceType := metadata.deviceType.getD deviceType }
  let st' : EngineState :=
    { st with userImpressions := fun u =>
        if u = userId then st.userImpressions u ++ [impression]
        else st.userImpressions u }
  (st', impression)

/-- Source `recordEngagement(postId, userId, engagementType, metadata = {})` — same
shape as `recordImpression`: the event
`{ postId, userId, type: engagementType, timestamp: Date.now(), ...metadata }`
is appended to the user's engagement list and returned, and the
`persistEngagement` outcome `persistOk` is swallowed by `.catch`. -/
def recordEngagement (st : EngineState) (now : ℤ)
    (postId userId engagementType : String) (metadata : EngagementMetadata)
    (persistOk : Bool) : EngineState × Engagement :=
  let engagement : Engagement :=
    { postId := metadata.postId.getD postId
      userId := metadata.userId.getD userId
      type := metadata.type.getD engagementType
      timestamp := metadata.timestamp.getD now }
  let st' : EngineState :=
    { st with userEngagements := fun u =>
        if u = userId then st.userEngagements u ++ [engagement]
        else st.userEngagements u }
  (st', engagement)

/-! ## Scoring -/

/-- Source `calculateEngagementScore(post)`:
`(likes*1 + reposts*2 + replies*3) / Math.max(1, likes+reposts+replies)`. -/
noncomputable def calculateEngagementScore (post : Post) : ℝ :=
  let likes := post.likes
  let reposts := post.reposts
  let replies := post.replies
  ((likes : ℝ) * 1.0 + (reposts : ℝ) * 2.0 + (replies : ℝ) * 3.0) /
    ((max 1 (likes + reposts + replies) : ℕ) : ℝ)

/-- Source `calculateRecencyScore(post)`: `exp(-ageInHours / 24)` with
`ageInHours = (Date.now() - post.createdAt) / 3600000`. -/
noncomputable def calculateRecencyScore (now : ℤ) (post : Post) : ℝ :=
  let ageInHours : ℝ := ((now - post.createdAt : ℤ) : ℝ) / 3600000
  Real.exp (-ageInHours / 24)

/-- Source `calculateDiversityScore(post, userId)`:
`1 / (1 + 0.1 * |{e ∈ engagements(userId) | e.postId.startsWith(post.anonymousId)}|)`. -/
noncomputable def calculateDiversityScore (st : EngineState) (post : Post)
    (userId : String) : ℝ :=
  let userPosts := st.userEngagements userId
  let sameAuthorEngagements :=
    userPosts.filter fun e => strStartsWith e.postId post.anonymousId
  1.0 / (1.0 + (sameAuthorEngagements.length : ℝ) * 0.1)

/-- Source `calculateImpressionScore(post, userId)`: `decayFactor ^ n` when the user
already has `n > 0` impressions of the post, else `1`.  (The source also
computes `timeSinceLastView` from the last impression but never uses it.) -/
noncomputable def calculateImpressionScore (st : EngineState) (post : Post)
    (userId : String) : ℝ :=
  let userImpressions := st.userImpressions userId
  let postImpressions := userImpressions.filter fun i => i.postId = post.id
  if 0 < postImpressions.length then
    impressionDecayFactor ^ postImpressions.length
  else 1.0

/-- Source `calculatePostScore(post, userId, userPreferences = {})`:
`engagement*W_e + recency*W_r + diversity*W_d + impression*0.0`, then
`*= 1.2` when `userPreferences.boostRecent` is truthy. -/
noncomputable def calculatePostScore (st : EngineState) (now : ℤ) (post : Post)
    (userId : String) (userPreferences : UserPreferences) : ℝ :=
  let engagementScore := calculateEngagementScore post
  let recencyScore := calculateRecencyScore now post
  let diversityScore := calculateDiversityScore st post userId
  let impressionScore := calculateImpressionScore st post userId
  let finalScore :=
    engagementScore * engagementWeight + recencyScore * recencyWeight +
      diversityScore * diversityWeight + impressionScore * 0.0
  if userPreferences.boostRecent then finalScore * 1.2 else finalScore

/-- Source `calculateTrendScore(post, now)`:
`(likes / Math.max(1, impressionCount || 1)) * exp(-ageInHours / 6)`. -/
noncomputable def calculateTrendScore (post : Post) (now : ℤ) : ℝ :=
  let ageInHours : ℝ := ((now - post.createdAt : ℤ) : ℝ) / 3600000
  let engagementRate : ℝ :=
    (post.likes : ℝ) / ((max 1 (jsOr post.impressionCount 1) : ℕ) : ℝ)
  engagementRate * Real.exp (-ageInHours / 6)

/-- The `score` field read by the feed comparator (`b.score - a.score`);
always present on the objects that pipeline sorts. -/
noncomputable def scoreVal (r : RankedPost) : ℝ := r.score.getD 0

/-- The `trendScore` field read by the trending comparator. -/
noncomputable def trendVal (r : RankedPost) : ℝ := r.trendScore.getD 0

noncomputable instance : DecidableRel fun a b : RankedPost => scoreVal b ≤ scoreVal a :=
  fun _ _ => Real.decidableLE _ _

noncomputable instance : DecidableRel fun a b : RankedPost => trendVal b ≤ trendVal a :=
  fun _ _ => Real.decidableLE _ _

/-- JS `.sort((a, b) => b.score - a.score)`: stable descending sort by score. -/
noncomputable def sortByScoreDesc (l : List RankedPost) : List RankedPost :=
  l.insertionSort fun a b => scoreVal b ≤ scoreVal a

/-- JS `.sort((a, b) => b.trendScore - a.trendScore)`. -/
noncomputable def sortByTrendDesc (l : List RankedPost) : List RankedPost :=
  l.insertionSort fun a b => trendVal b ≤ trendVal a

/-! ## Feed generation, trending, recommendation, popularity -/

/-- The cache-miss path of `generateFeed`: score every post, sort descending,
truncate to `maxFeedSize`, store in the cache, return. -/
noncomputable def generateFeedCompute (st : EngineState) (now : ℤ)
    (allPosts : List Post) (userId : String)
    (userPreferences : UserPreferences) : EngineState × List RankedPost :=
  let scoredPosts := allPosts.map fun post =>
    ({ post := post, score := some (calculatePostScore st now post userId userPreferences),
       trendScore := none } : RankedPost)
  let rankedPosts := (sortByScoreDesc scoredPosts).take maxFeedSize
  let st' : EngineState :=
    { st with feedCache := fun u =>
        if u = userId then some ⟨rankedPosts, now⟩ else st.feedCache u }
  (st', rankedPosts)

/-- Source `generateFeed(allPosts, userId, userPreferences = {})`: return the cached
feed when a cache entry exists and `Date.now() - cached.timestamp <
impressionCacheTTL`; otherwise recompute and overwrite the cache. -/
noncomputable def generateFeed (st : EngineState) (now : ℤ)
    (allPosts : List Post) (userId : String)
    (userPreferences : UserPreferences) : EngineState × List RankedPost :=
  match st.feedCache userId with
  | some cached =>
    if now - cached.timestamp < impressionCacheTTL then (st, cached.feed)
    else generateFeedCompute st now allPosts userId userPreferences
  | none => generateFeedCompute st now allPosts userId userPreferences

/-- Source `getTrendingPosts(allPosts, limit = 10)`: annotate with `trendScore`,
sort descending, truncate. -/
noncomputable def getTrendingPosts (now : ℤ) (allPosts : List Post)
    (limit : ℕ) : List RankedPost :=
  (sortByTrendDesc (allPosts.map fun post =>
    ({ post := post, score := none,
       trendScore := some (calculateTrendScore post now) } : RankedPost))).take limit

/-- Source `getRecommendedPosts(allPosts, userId, limit = 10)`.  With no engagement
history, delegate to `getTrendingPosts`.  Otherwise filter out engaged posts
and posts whose `displayName` equals `engagedPosts[0]?.displayName` (the
first post of `allPosts` the user engaged with), then — in this order —
`slice(0, limit)`, annotate with `calculatePostScore` (called without a
preferences argument, i.e. the `{}` default), and sort descending. -/
noncomputable def getRecommendedPosts (st : EngineState) (now : ℤ)
    (allPosts : List Post) (userId : String) (limit : ℕ) : List RankedPost :=
  let userEngagements := st.userEngagements userId
  if userEngagements.length = 0 then
    getTrendingPosts now allPosts limit
  else
    let engagedPostIds := userEngagements.map Engagement.postId
    let engagedPosts := allPosts.filter fun p => engagedPostIds.contains p.id
    let recommended := allPosts.filter fun post =>
      !engagedPostIds.contains post.id &&
        (match engagedPosts.head? with
         | some p0 => post.displayName != p0.displayName
         | none => true)
    sortByScoreDesc ((recommended.take limit).map fun post =>
      ({ post := post,
         score := some (calculatePostScore st now post userId UserPreferences.default),
         trendScore := none } : RankedPost))

/-- Source `getPostPopularity(post)`:
`rate = (likes+reposts+replies) / (impressionCount || 1)`, classified by the
if-chain `> 0.1 → viral`, `> 0.05 → trending`, `> 0.02 → popular`, else
`normal`.  It reads nothing but the post's counters and touches no engine
state. -/
def getPostPopularity (post : Post) : String :=
  let impressions := jsOr post.impressionCount 1
  let engagementRate : ℚ :=
    ((post.likes + post.reposts + post.replies : ℕ) : ℚ) / (impressions : ℚ)
  if 0.1 < engagementRate then "viral"
  else if 0.05 < engagementRate then "trending"
  else if 0.02 < engagementRate then "popular"
  else "normal"

/-! ## Spec-side formulations (for refinement comparisons)

These definitions follow the wording of the specification / claims, to be
compared with the source-derived definitions above. -/

/-- Spec formulation of `getPostPopularity`:
`rate = (likes+reposts+replies) / max(1, impressionCount)` classified into
the disjoint ranges `rate > 0.10 → viral`, `0.05 < rate ≤ 0.10 → trending`,
`0.02 < rate ≤ 0.05 → popular`, else `normal`.  By construction it reads
only the engagement counters and the impression count. -/
def getPostPopularitySpec (post : Post) : String :=
  let rate : ℚ :=
    ((post.likes + post.reposts + post.replies : ℕ) : ℚ) /
      ((max 1 post.impressionCount : ℕ) : ℚ)
  if 1/10 < rate then "viral"
  else if 1/20 < rate ∧ rate ≤ 1/10 then "trending"
  else if 1/50 < rate ∧ rate ≤ 1/20 then "popular"
  else "normal"

/-- The claim's formulation of `getRecommendedPosts` for a user with
engagement history: exclude posts already engaged with and posts whose
author matches the author of the user's *most recent* engagement, score
*every* remaining candidate, sort descending, and truncate the *sorted*
result to `limit`. -/
noncomputable def getRecommendedPostsClaimed (st : EngineState) (now : ℤ)
    (allPosts : List Post) (userId : String) (limit : ℕ) : List RankedPost :=
  let userEngagements := st.userEngagements userId
  let engagedPostIds := userEngagements.map Engagement.postId
  let recentAuthor : Option String :=
    userEngagements.getLast?.bind fun e =>
      (allPosts.find? fun p => p.id == e.postId).map Post.displayName
  let candidates := allPosts.filter fun post =>
    !engagedPostIds.contains post.id &&
      (match recentAuthor with
       | some a => post.displayName != a
       | none => true)
  (sortByScoreDesc (candidates.map fun post =>
    ({ post := post,
       score := some (calculatePostScore st now post userId UserPreferences.default),
       trendScore := none } : RankedPost))).take limit

/-- Amended formulation of `getRecommendedPosts` for a user with engagement
history: the excluded author is that of the *first post of `allPosts`* the
user has engaged with (not the most recent engagement), and the candidate
list is truncated to its first `limit` elements *in input order* before
scoring and sorting. -/
noncomputable def getRecommendedPostsAmended (st : EngineState) (now : ℤ)
    (allPosts : List Post) (userId : String) (limit : ℕ) : List RankedPost :=
  let userEngagements := st.userEngagements userId
  let engagedPostIds := userEngagements.map Engagement.postId
  let firstEngaged : Option Post :=
    allPosts.find? fun p => engagedPostIds.contains p.id
  let candidates := allPosts.filter fun post =>
    !engagedPostIds.contains post.id &&
      (match firstEngaged with
       | some p0 => post.displayName != p0.displayName
       | none => true)
  sortByScoreDesc ((candidates.take limit).map fun post =>
    ({ post := post,
       score := some (calculatePostScore st now post userId UserPreferences.default),
       trendScore := none } : RankedPost))

/-! ## Concrete sample data (used by counterexamples and witnesses) -/

/-- A bare post with the given id, author id, display name and creation
time, no engagement counters and no impressions. -/
def mkPost (i a n : String) (t : ℤ) : Post :=
  ⟨i, a, n, t, none, 0⟩

/-- Four posts by two display names, all created at time `0`. -/
def samplePosts : List Post :=
  [mkPost "p1" "a1" "X" 0, mkPost "p2" "a2" "Y" 0,
   mkPost "p3" "a3" "X" 0, mkPost "p4" "a4" "Y" 0]

/-- A state where user `u` engaged first with `p1` (author `X`) and most
recently with `p2` (author `Y`). -/
def sampleState : EngineState :=
  { EngineState.empty with userEngagements := fun u =>
      if u = "u" then
        [⟨"p1", "u", "like", 0⟩, ⟨"p2", "u", "like", 1⟩]
      else [] }

/-- A state whose feed cache holds an (empty) feed for `u1`, written at
time `0`. -/
def cachedState : EngineState :=
  { EngineState.empty with feedCache := fun u =>
      if u = "u1" then some ⟨[], 0⟩ else none }

/-- Scenario post A of the spec: created now, 100 likes, 0 reposts,
0 replies, 1000 impressions. -/
def postA (i a n : String) (now : ℤ) : Post :=
  ⟨i, a, n, now, some ⟨100, 0, 0⟩, 1000⟩

/-- Scenario post B of the spec: created 48 hours (`172800000` ms) ago,
10 likes, 0 reposts, 0 replies, 50 impressions. -/
def postB (i a n : String) (now : ℤ) : Post :=
  ⟨i, a, n, now - 172800000, some ⟨10, 0, 0⟩, 50⟩

/-- A post engaged by user `u2`, display name `X`. -/
def q0 : Post := mkPost "q0" "b0" "X" 0

/-- A candidate post with one like (engagement score `1`). -/
def q1 : Post := ⟨"q1", "b1", "Y", 0, some ⟨1, 0, 0⟩, 0⟩

/-- A candidate post with one reply (engagement score `3`). -/
def q2 : Post := ⟨"q2", "b2", "Z", 0, some ⟨0, 0, 1⟩, 0⟩

/-- Input collection: the engaged post followed by the two candidates, the
lower-scoring candidate first. -/
def slicePosts : List Post := [q0, q1, q2]

/-- A state where user `u2` engaged with `q0` only. -/
def sliceState : EngineState :=
  { EngineState.empty with userEngagements := fun u =>
      if u = "u2" then [⟨"q0", "u2", "like", 0⟩] else [] }

/-- Candidate `q1` as scored by the recommendation pipeline for `u2`. -/
noncomputable def rq1 : RankedPost :=
  ⟨q1, some (calculatePostScore sliceState 0 q1 "u2" UserPreferences.default), none⟩

/-- Candidate `q2` as scored by the recommendation pipeline for `u2`. -/
noncomputable def rq2 : RankedPost :=
  ⟨q2, some (calculatePostScore sliceState 0 q2 "u2" UserPreferences.default), none⟩

/-! ## Helper lemmas -/

/-- JS `n || 1` on a `ℕ` agrees with `max 1 n`. -/
theorem jsOr_one (n : ℕ) : jsOr n 1 = max 1 n := by
  unfold jsOr; split <;> omega

/-- The head of a filtered list is the first element satisfying the
predicate. -/
theorem head?_filter {α : Type} (p : α → Bool) (l : List α) :
    (l.filter p).head? = l.find? p := by
  induction l with
  | nil => rfl
  | cons a l ih =>
    by_cases h : p a <;> simp [List.filter_cons, List.find?_cons, h, ih]

/-- The diversity score is strictly positive. -/
theorem calculateDiversityScore_pos (st : EngineState) (post : Post)
    (userId : String) : 0 < calculateDiversityScore st post userId := by
  unfold calculateDiversityScore
  positivity

/-- The diversity score is at most `1`. -/
theorem calculateDiversityScore_le_one (st : EngineState) (post : Post)
    (userId : String) : calculateDiversityScore st post userId ≤ 1 := by
  unfold calculateDiversityScore
  rw [div_le_one (by positivity)]
  have : (0:ℝ) ≤ (((st.userEngagements userId).filter fun e =>
      strStartsWith e.postId post.anonymousId).length : ℝ) * 0.1 := by positivity
  linarith

/-- Score of candidate `q1` for `u2`: engagement `1`, recency `1`,
diversity `1`, so `0.6 + 0.3 + 0.1 = 1`. -/
theorem score_q1 : calculatePostScore sliceState 0 q1 "u2" UserPreferences.default = 1 := by
  have he : calculateEngagementScore q1 = 1 := by
    unfold calculateEngagementScore
    norm_num [q1, Post.likes, Post.reposts, Post.replies]
  have hr : calculateRecencyScore 0 q1 = 1 := by
    unfold calculateRecencyScore
    norm_num [q1, Real.exp_zero]
  have hd : calculateDiversityScore sliceState q1 "u2" = 1 := by
    unfold calculateDiversityScore
    norm_num [sliceState, EngineState.empty, q1, List.filter_cons,
      show strStartsWith "q0" "b1" = false from rfl]
  have hi : calculateImpressionScore sliceState q1 "u2" = 1 := by
    unfold calculateImpressionScore
    norm_num [sliceState, EngineState.empty]
  have hb : (UserPreferences.default.boostRecent = true) = False := by
    simp [UserPreferences.default]
  simp only [calculatePostScore, hb, if_false, he, hr, hd, hi]
  unfold engagementWeight recencyWeight diversityWeight
  norm_num

/-- Score of candidate `q2` for `u2`: engagement `3`, recency `1`,
diversity `1`, so `1.8 + 0.3 + 0.1 = 11/5`. -/
theorem score_q2 : calculatePostScore sliceState 0 q2 "u2" UserPreferences.default = 11/5 := by
  have he : calculateEngagementScore q2 = 3 := by
    unfold calculateEngagementScore
    norm_num [q2, Post.likes, Post.reposts, Post.replies]
  have hr : calculateRecencyScore 0 q2 = 1 := by
    unfold calculateRecencyScore
    norm_num [q2, Real.exp_zero]
  have hd : calculateDiversityScore sliceState q2 "u2" = 1 := by
    unfold calculateDiversityScore
    norm_num [sliceState, EngineState.empty, q2, List.filter_cons,
      show strStartsWith "q0" "b2" = false from rfl]
  have hi : calculateImpressionScore sliceState q2 "u2" = 1 := by
    unfold calculateImpressionScore
    norm_num [sliceState, EngineState.empty]
  have hb : (UserPreferences.default.boostRecent = true) = False := by
    simp [UserPreferences.default]
  simp only [calculatePostScore, hb, if_false, he, hr, hd, hi]
  unfold engagementWeight recencyWeight diversityWeight
  norm_num

/-! ## Claim theorems -/

/-- C1: `calculatePostScore(post, userId, preferences)` equals
`engagementScore*0.6 + recencyScore*0.3 + diversityScore*0.1` (the
impression score is computed but carries weight 0), the whole composite
multiplied by `1.2` exactly when `preferences.boostRecent` is true. -/
theorem calculatePostScore_eq_weighted (st : EngineState) (now : ℤ)
    (post : Post) (userId : String) (prefs : UserPreferences) :
    calculatePostScore st now post userId prefs =
      (calculateEngagementScore post * 0.6 + calculateRecencyScore now post * 0.3 +
        calculateDiversityScore st post userId * 0.1) *
        (if prefs.boostRecent then 1.2 else 1) := by
  simp only [calculatePostScore, engagementWeight, recencyWeight,
    diversityWeight]
  split_ifs <;> ring

/-- C3: with a cache entry less than `impressionCacheTTL` old, `generateFeed`
returns the cached feed verbatim and leaves the state untouched, whatever
`allPosts` and `userPreferences` are passed. -/
theorem generateFeed_cache_hit (st : EngineState) (now : ℤ)
    (allPosts : List Post) (userId : String) (prefs : UserPreferences)
    (c : CacheEntry) (hc : st.feedCache userId = some c)
    (ht : now - c.timestamp < impressionCacheTTL) :
    generateFeed st now allPosts userId prefs = (st, c.feed) := by
  unfold generateFeed
  rw [hc]
  simp [ht]

/-- C3 witness: a concrete cache hit. -/
theorem generateFeed_cache_hit_witness :
    cachedState.feedCache "u1" = some ⟨[], 0⟩ ∧
    (1 : ℤ) - 0 < impressionCacheTTL ∧
    generateFeed cachedState 1 samplePosts "u1" UserPreferences.default =
      (cachedState, ([] : List RankedPost)) :=
  ⟨rfl, by decide,
    generateFeed_cache_hit cachedState 1 samplePosts "u1"
      UserPreferences.default ⟨[], 0⟩ rfl (by decide)⟩

/-- C4 counterexample: with metadata `{}`, the recorded impression's
`inViewport` is `true`, not `false` — `metadata.inViewport !== false` holds
for an absent key. -/
theorem recordImpression_inViewport_not_false :
    (recordImpression EngineState.empty 0 "desktop" "p1" "u1"
      ImpressionMetadata.empty true).2.inViewport ≠ false := by decide

/-- C4 (amended): a record call with non-empty `postId` and `userId` always
succeeds, appends the constructed impression to the user's list, and the
absent metadata fields default to `0` for `viewDuration` and `scrollDepth`
and to `true` (not `false`) for `inViewport`. -/
theorem recordImpression_defaults (st : EngineState) (now : ℤ)
    (dt postId userId : String) (md : ImpressionMetadata) (ok : Bool)
    (h1 : postId ≠ "") (h2 : userId ≠ "") :
    (recordImpression st now dt postId userId md ok).2 ∈
      (recordImpression st now dt postId userId md ok).1.userImpressions userId ∧
    (md.viewDuration = none →
      (recordImpression st now dt postId userId md ok).2.viewDuration = 0) ∧
    (md.scrollDepth = none →
      (recordImpression st now dt postId userId md ok).2.scrollDepth = 0) ∧
    (md.inViewport = none →
      (recordImpression st now dt postId userId md ok).2.inViewport = true) := by
  refine ⟨by simp [recordImpression], fun h => ?_, fun h => ?_, fun h => ?_⟩ <;>
    simp [recordImpression, h]

/-- C4 witness: the defaults at a concrete call with metadata `{}`. -/
theorem recordImpression_defaults_witness :
    ("p1" : String) ≠ "" ∧ ("u1" : String) ≠ "" ∧
    (recordImpression EngineState.empty 0 "desktop" "p1" "u1"
      ImpressionMetadata.empty true).2.viewDuration = 0 ∧
    (recordImpression EngineState.empty 0 "desktop" "p1" "u1"
      ImpressionMetadata.empty true).2.scrollDepth = 0 ∧
    (recordImpression EngineState.empty 0 "desktop" "p1" "u1"
      ImpressionMetadata.empty true).2.inViewport = true := by
  have h := recordImpression_defaults EngineState.empty 0 "desktop" "p1" "u1"
    ImpressionMetadata.empty true (by decide) (by decide)
  exact ⟨by decide, by decide, h.2.1 rfl, h.2.2.1 rfl, h.2.2.2 rfl⟩

/-- C5: without a valid cache entry, the feed's length is
`min |allPosts| 50` — at most `maxFeedSize`, the full input when smaller,
and empty on empty input. -/
theorem generateFeed_length (st : EngineState) (now : ℤ)
    (allPosts : List Post) (userId : String) (prefs : UserPreferences)
    (h : ∀ c, st.feedCache userId = some c →
      ¬ now - c.timestamp < impressionCacheTTL) :
    ((generateFeed st now allPosts userId prefs).2).length =
      min allPosts.length 50 := by
  have hcompute :
      ((generateFeedCompute st now allPosts userId prefs).2).length =
        min allPosts.length 50 := by
    unfold generateFeedCompute sortByScoreDesc
    simp [List.length_take, List.length_insertionSort, maxFeedSize,
      Nat.min_comm]
  unfold generateFeed
  cases hc : st.feedCache userId with
  | none => exact hcompute
  | some c =>
    dsimp only
    rw [if_neg (h c hc)]
    exact hcompute

/-- C5 witness: empty cache and empty input give an empty feed. -/
theorem generateFeed_length_witness :
    (∀ c, EngineState.empty.feedCache "u" = some c →
      ¬ (0:ℤ) - c.timestamp < impressionCacheTTL) ∧
    ((generateFeed EngineState.empty 0 [] "u" UserPreferences.default).2).length =
      min ([] : List Post).length 50 :=
  ⟨fun _ hc => by simp [EngineState.empty] at hc,
   generateFeed_length EngineState.empty 0 [] "u" UserPreferences.default
     (fun _ hc => by simp [EngineState.empty] at hc)⟩

/-- C6: with no engagement history, `getRecommendedPosts` returns exactly
`getTrendingPosts allPosts limit`. -/
theorem getRecommendedPosts_cold_start (st : EngineState) (now : ℤ)
    (allPosts : List Post) (userId : String) (limit : ℕ)
    (h : st.userEngagements userId = []) :
    getRecommendedPosts st now allPosts userId limit =
      getTrendingPosts now allPosts limit := by
  simp [getRecommendedPosts, h]

/-- C6 witness: a fresh engine delegates to trending. -/
theorem getRecommendedPosts_cold_start_witness :
    EngineState.empty.userEngagements "u" = [] ∧
    getRecommendedPosts EngineState.empty 0 samplePosts "u" 3 =
      getTrendingPosts 0 samplePosts 3 :=
  ⟨rfl, getRecommendedPosts_cold_start EngineState.empty 0 samplePosts "u" 3 rfl⟩

/-- C8: `getPostPopularity` is the pure classification of
`rate = (likes+reposts+replies) / max(1, impressionCount)` into the ranges
`>0.10 → viral`, `(0.05, 0.10] → trending`, `(0.02, 0.05] → popular`, else
`normal`. -/
theorem getPostPopularity_eq_spec (post : Post) :
    getPostPopularity post = getPostPopularitySpec post := by
  simp only [getPostPopularity, getPostPopularitySpec, jsOr_one]
  set r : ℚ := ((post.likes + post.reposts + post.replies : ℕ) : ℚ) /
    ((max 1 post.impressionCount : ℕ) : ℚ) with hr
  rw [show (0.1 : ℚ) = 1/10 by norm_num, show (0.05 : ℚ) = 1/20 by norm_num,
    show (0.02 : ℚ) = 1/50 by norm_num]
  by_cases h1 : (1:ℚ)/10 < r
  · rw [if_pos h1, if_pos h1]
  · rw [if_neg h1, if_neg h1]
    by_cases h2 : (1:ℚ)/20 < r
    · rw [if_pos h2, if_pos ⟨h2, le_of_not_lt h1⟩]
    · rw [if_neg h2, if_neg (fun hc : (1:ℚ)/20 < r ∧ r ≤ 1/10 => h2 hc.1)]
      by_cases h3 : (1:ℚ)/50 < r
      · rw [if_pos h3, if_pos ⟨h3, le_of_not_lt h2⟩]
      · rw [if_neg h3, if_neg (fun hc : (1:ℚ)/50 < r ∧ r ≤ 1/20 => h3 hc.1)]

/-- C9: the outcome of the asynchronous persistence call changes neither the
result nor the state of `recordImpression`/`recordEngagement`, and the
constructed event stays appended to the user's in-memory list. -/
theorem record_persist_failure_invisible (st : EngineState) (now : ℤ)
    (dt postId userId ty : String) (mi : ImpressionMetadata)
    (me : EngagementMetadata) (ok ok' : Bool) :
    recordImpression st now dt postId userId mi ok =
      recordImpression st now dt postId userId mi ok' ∧
    recordEngagement st now postId userId ty me ok =
      recordEngagement st now postId userId ty me ok' ∧
    (recordImpression st now dt postId userId mi ok).2 ∈
      (recordImpression st now dt postId userId mi ok).1.userImpressions userId ∧
    (recordEngagement st now postId userId ty me ok).2 ∈
      (recordEngagement st now postId userId ty me ok).1.userEngagements userId := by
  refine ⟨rfl, rfl, ?_, ?_⟩ <;> simp [recordImpression, recordEngagement]

/-- C2 counterexample: the claimed description of `getRecommendedPosts`
(exclude the most recent engagement's author, score all candidates, sort,
then truncate) disagrees with the code on two concrete inputs.  With
`sampleState`/`samplePosts` the code excludes author `X` (first engaged post
in `allPosts` order) and returns `p4`, while the claim excludes author `Y`
(most recent engagement) and returns `p3`.  With `sliceState`/`slicePosts`
and `limit = 1` the code truncates *before* scoring and returns the
first-in-input candidate `q1`, while the claim sorts first and returns the
higher-scoring `q2`. -/
theorem getRecommendedPosts_claim_false :
    (getRecommendedPosts sampleState 0 samplePosts "u" 10).map (fun rp => rp.post.id) ≠
      (getRecommendedPostsClaimed sampleState 0 samplePosts "u" 10).map (fun rp => rp.post.id) ∧
    (getRecommendedPosts sliceState 0 slicePosts "u2" 1).map (fun rp => rp.post.id) ≠
      (getRecommendedPostsClaimed sliceState 0 slicePosts "u2" 1).map (fun rp => rp.post.id) := by
  constructor
  · have h1 : (getRecommendedPosts sampleState 0 samplePosts "u" 10).map
        (fun rp => rp.post.id) = ["p4"] := rfl
    have h2 : (getRecommendedPostsClaimed sampleState 0 samplePosts "u" 10).map
        (fun rp => rp.post.id) = ["p3"] := rfl
    rw [h1, h2]
    decide
  · have h1 : (getRecommendedPosts sliceState 0 slicePosts "u2" 1).map
        (fun rp => rp.post.id) = ["q1"] := rfl
    have hcomp : ¬ scoreVal rq2 ≤ scoreVal rq1 := by
      show ¬ ((some (calculatePostScore sliceState 0 q2 "u2" UserPreferences.default)).getD 0 ≤
          (some (calculatePostScore sliceState 0 q1 "u2" UserPreferences.default)).getD 0)
      rw [Option.getD_some, Option.getD_some, score_q1, score_q2]
      norm_num
    have h2 : (getRecommendedPostsClaimed sliceState 0 slicePosts "u2" 1).map
        (fun rp => rp.post.id) = ["q2"] := by
      have hstep : getRecommendedPostsClaimed sliceState 0 slicePosts "u2" 1 =
          (if scoreVal rq2 ≤ scoreVal rq1 then [rq1, rq2] else [rq2, rq1]).take 1 := rfl
      rw [hstep, if_neg hcomp]
      rfl
    rw [h1, h2]
    decide

/-- C2 (amended): for a user with engagement history, `getRecommendedPosts`
excludes engaged posts and posts whose `displayName` equals that of the
first engaged post in `allPosts` order, truncates the remaining candidates
to the first `limit` in input order, scores those, and sorts descending by
score. -/
theorem getRecommendedPosts_eq_amended (st : EngineState) (now : ℤ)
    (allPosts : List Post) (userId : String) (limit : ℕ)
    (h : st.userEngagements userId ≠ []) :
    getRecommendedPosts st now allPosts userId limit =
      getRecommendedPostsAmended st now allPosts userId limit := by
  have hlen : ((st.userEngagements userId).length = 0) = False := by
    simp [List.length_eq_zero, h]
  simp only [getRecommendedPosts, getRecommendedPostsAmended, hlen, if_false,
    head?_filter]

/-- C2 witness: the amended description at a concrete engaged user. -/
theorem getRecommendedPosts_eq_amended_witness :
    sampleState.userEngagements "u" ≠ [] ∧
    getRecommendedPosts sampleState 0 samplePosts "u" 10 =
      getRecommendedPostsAmended sampleState 0 samplePosts "u" 10 :=
  ⟨by decide, getRecommendedPosts_eq_amended sampleState 0 samplePosts "u" 10 (by decide)⟩

/-- C7: for every engine state (hence every engagement/impression history),
the spec's scenario post A (fresh, 100 likes, 1000 impressions) scores
strictly higher than post B (48 h old, 10 likes, 50 impressions) under
default weights: both have engagement score `1`, recency is `1` versus
`exp(-2)`, and the weighted diversity terms lie in `(0, 0.1]`. -/
theorem postScore_A_above_B (st : EngineState) (now : ℤ)
    (u iA aA nA iB aB nB : String) :
    calculatePostScore st now (postB iB aB nB now) u UserPreferences.default <
      calculatePostScore st now (postA iA aA nA now) u UserPreferences.default := by
  have hengA : calculateEngagementScore (postA iA aA nA now) = 1 := by
    unfold calculateEngagementScore
    norm_num [postA, Post.likes, Post.reposts, Post.replies,
      show max 1 100 = 100 from rfl]
  have hengB : calculateEngagementScore (postB iB aB nB now) = 1 := by
    unfold calculateEngagementScore
    norm_num [postB, Post.likes, Post.reposts, Post.replies,
      show max 1 10 = 10 from rfl]
  have hrecA : calculateRecencyScore now (postA iA aA nA now) = 1 := by
    unfold calculateRecencyScore
    norm_num [postA, Real.exp_zero]
  have hrecB : calculateRecencyScore now (postB iB aB nB now) = Real.exp (-2) := by
    unfold calculateRecencyScore
    have hage : ((now - (now - 172800000) : ℤ) : ℝ) = 172800000 := by
      push_cast
      ring
    norm_num [postB, hage]
  have hdA := calculateDiversityScore_pos st (postA iA aA nA now) u
  have hdB := calculateDiversityScore_le_one st (postB iB aB nB now) u
  have hexp : Real.exp (-2 : ℝ) ≤ 1/3 := by
    have h3 : (3:ℝ) ≤ Real.exp 2 := by
      have := Real.add_one_le_exp (2:ℝ)
      linarith
    have hinv := inv_anti₀ (by norm_num : (0:ℝ) < 3) h3
    rw [Real.exp_neg]
    calc (Real.exp 2)⁻¹ ≤ (3:ℝ)⁻¹ := hinv
      _ = 1/3 := by norm_num
  have hb : (UserPreferences.default.boostRecent = true) = False := by
    simp [UserPreferences.default]
  simp only [calculatePostScore, hb, if_false, hengA, hengB, hrecA, hrecB]
  unfold engagementWeight recencyWeight diversityWeight
  ring_nf
  nlinarith [hdA, hdB, hexp]

/-- C10: `...metadata` is spread last, so on every call whose metadata
contains any one of the named keys — independently of which other keys are
present — the stored and returned event takes that field's value from the
metadata, overriding the explicit arguments and the engine-generated values
(`timestamp` replaces the engine's `Date.now()`, `deviceType` replaces the
detected device, `type` replaces the `engagementType` argument). -/
theorem record_metadata_overrides (st : EngineState) (now : ℤ)
    (dt postId userId ty : String) (mi : ImpressionMetadata)
    (me : EngagementMetadata) (ok : Bool) :
    (∀ v, mi.postId = some v →
      (recordImpression st now dt postId userId mi ok).2.postId = v) ∧
    (∀ v, mi.userId = some v →
      (recordImpression st now dt postId userId mi ok).2.userId = v) ∧
    (∀ v, mi.timestamp = some v →
      (recordImpression st now dt postId userId mi ok).2.timestamp = v) ∧
    (∀ v, mi.viewDuration = some v →
      (recordImpression st now dt postId userId mi ok).2.viewDuration = v) ∧
    (∀ v, mi.scrollDepth = some v →
      (recordImpression st now dt postId userId mi ok).2.scrollDepth = v) ∧
    (∀ v, mi.inViewport = some v →
      (recordImpression st now dt postId userId mi ok).2.inViewport = v) ∧
    (∀ v, mi.deviceType = some v →
      (recordImpression st now dt postId userId mi ok).2.deviceType = v) ∧
    (∀ v, me.postId = some v →
      (recordEngagement st now postId userId ty me ok).2.postId = v) ∧
    (∀ v, me.userId = some v →
      (recordEngagement st now postId userId ty me ok).2.userId = v) ∧
    (∀ v, me.type = some v →
      (recordEngagement st now postId userId ty me ok).2.type = v) ∧
    (∀ v, me.timestamp = some v →
      (recordEngagement st now postId userId ty me ok).2.timestamp = v) := by
  refine ⟨fun v hv => ?_, fun v hv => ?_, fun v hv => ?_, fun v hv => ?_,
    fun v hv => ?_, fun v hv => ?_, fun v hv => ?_, fun v hv => ?_,
    fun v hv => ?_, fun v hv => ?_, fun v hv => ?_⟩ <;>
    simp [recordImpression, recordEngagement, hv]

/-- C10 witness: a partial metadata object carrying only a `timestamp` key
overrides the engine clock on both record calls. -/
theorem record_metadata_overrides_witness :
    (⟨none, none, some 42, none, none, none, none⟩ :
      ImpressionMetadata).timestamp = some 42 ∧
    (recordImpression EngineState.empty 0 "desktop" "p1" "u1"
      ⟨none, none, some 42, none, none, none, none⟩ true).2.timestamp = 42 ∧
    (⟨none, none, none, some 42⟩ : EngagementMetadata).timestamp = some 42 ∧
    (recordEngagement EngineState.empty 0 "p1" "u1" "like"
      ⟨none, none, none, some 42⟩ true).2.timestamp = 42 := by
  have h := record_metadata_overrides EngineState.empty 0 "desktop" "p1" "u1"
    "like" ⟨none, none, some 42, none, none, none, none⟩
    ⟨none, none, none, some 42⟩ true
  exact ⟨rfl, h.2.2.1 42 rfl, rfl, h.2.2.2.2.2.2.2.2.2.2 42 rfl⟩

end PulseNote
